import Mathlib

/-
  Verification development for the retro marble game repository.

  The physics engine (src/js/ts/physics.ts, class PhysicsEngine) and the
  turn-based match logic (src/src/game.ts RetroMarbleGame together with
  src/src/eventmanager.ts EventManager, the decomposed and authoritative
  variant) are embedded shallowly over exact rational arithmetic.

  Modelling conventions:
  - JavaScript numbers are modelled as rationals.  All constants of the
    source are exactly representable.
  - Math.sqrt appears in the source in two roles.  Where the source only
    compares the square root against a constant (speed > 0.5), the model
    compares squares, which is equivalent over nonnegative reals.  Where
    the source uses the root as a value (collision normals, AI aiming),
    the model uses ratSqrt, which agrees with the real square root on
    every perfect rational square; all concrete inputs appearing in the
    theorems below are chosen with perfect-square radicands, so the model
    is exact there.
  - Math.pow(base, dt * 60) is modelled by qpow, exact whenever the
    exponent is a nonnegative integer; the theorems below only exercise
    integer exponents.
  - The optional onCollide callback of a body is modelled by the flag
    hasCallback plus an explicit list of CollisionEvent values returned
    by each operation, recording (callback owner, other body, force) in
    the order the source would invoke the callbacks.
  - In-place mutation of the body array is modelled by returning the
    updated list; the i < j double loop of PhysicsEngine.update is
    modelled by collideLoop, threading updated bodies exactly in source
    order.
-/

namespace Marble

inductive BodyType where
  | circle
  | rectangle
deriving DecidableEq, Repr

/-- Physics body, from the PhysicsBody interface of physics.ts merged with
the GameBall and GameObstacle record shapes of databus.ts (isPlayer and
isEnemy flags).  Geometry fields that the source leaves undefined for the
other shape default to 0, mirroring the `body.radius || 0` reads. -/
structure Body where
  id : String
  type : BodyType
  x : ℚ
  y : ℚ
  vx : ℚ
  vy : ℚ
  mass : ℚ := 1
  radius : ℚ := 0
  width : ℚ := 0
  height : ℚ := 0
  isStatic : Bool := false
  restitution : ℚ := 0
  friction : ℚ := 0
  hasCallback : Bool := false
  isPlayer : Bool := false
  isEnemy : Bool := false
deriving DecidableEq, Repr

/-- One invocation of an onCollide callback: the body whose callback ran,
the id of the other participant it received, and the force argument. -/
structure CollisionEvent where
  selfId : String
  otherId : String
  force : ℚ
deriving DecidableEq, Repr

/-- World bounds held by PhysicsEngine (constructor arguments). -/
structure Bounds where
  width : ℚ
  height : ℚ
deriving DecidableEq, Repr

inductive Axis where
  | x
  | y
deriving DecidableEq, Repr

/-- Fuel-driven scan computing the integer square root: the largest k with
k * k ≤ n, reached because the fuel starts at n ≥ sqrt n. -/
def isqrtGo : ℕ → ℕ → ℕ → ℕ
  | 0, k, _ => k
  | fuel + 1, k, n => if (k + 1) * (k + 1) ≤ n then isqrtGo fuel (k + 1) n else k

/-- Integer square root (largest k with k * k ≤ n). -/
def isqrt (n : ℕ) : ℕ := isqrtGo n 0 n

/-- Rational square root, exact on perfect rational squares (numerator and
denominator of the reduced form both perfect squares).  Stands in for
Math.sqrt; every concrete radicand in this file is a perfect square. -/
def ratSqrt (q : ℚ) : ℚ :=
  (isqrt q.num.toNat : ℚ) / (isqrt q.den : ℚ)

/-- Rational power, exact for nonnegative integer exponents.  Stands in for
Math.pow(base, dt * 60); the theorems below only use integer exponents. -/
def qpow (b : ℚ) (e : ℚ) : ℚ :=
  b ^ e.num.toNat

namespace PhysicsEngine

/-- private reflect(body, axis) of physics.ts: negate and damp the axis
velocity by restitution, then fire the onCollide callback with a
pseudo-body of id "wall" and the absolute value of the (already
reflected) axis velocity. -/
def reflect (body : Body) (axis : Axis) : Body × List CollisionEvent :=
  let b' :=
    match axis with
    | Axis.x => { body with vx := -body.vx * body.restitution }
    | Axis.y => { body with vy := -body.vy * body.restitution }
  let v := match axis with | Axis.x => b'.vx | Axis.y => b'.vy
  let ev := if b'.hasCallback then [⟨b'.id, "wall", |v|⟩] else []
  (b', ev)

/-- private checkWorldBounds(body) of physics.ts: clamp each axis into
[r, bound - r] and reflect on the clamped axis. -/
def checkWorldBounds (bounds : Bounds) (body : Body) : Body × List CollisionEvent :=
  let r := body.radius
  let step1 :=
    if body.x - r < 0 then
      reflect { body with x := r } Axis.x
    else if body.x + r > bounds.width then
      reflect { body with x := bounds.width - r } Axis.x
    else (body, [])
  let b1 := step1.1
  let step2 :=
    if b1.y - r < 0 then
      reflect { b1 with y := r } Axis.y
    else if b1.y + r > bounds.height then
      reflect { b1 with y := bounds.height - r } Axis.y
    else (b1, [])
  (step2.1, step1.2 ++ step2.2)

/-- private updateBody(body, dt) of physics.ts: integrate position, apply
exponential friction decay above the speed threshold 0.5 or snap the
velocity to zero at or below it, then clamp into world bounds.  The
source compares Math.sqrt(vx*vx + vy*vy) > 0.5; the model compares the
equivalent squared form. -/
def updateBody (bounds : Bounds) (body : Body) (dt : ℚ) : Body × List CollisionEvent :=
  if body.isStatic then (body, [])
  else
    let b1 := { body with x := body.x + body.vx * dt, y := body.y + body.vy * dt }
    let b2 :=
      if b1.vx * b1.vx + b1.vy * b1.vy > (1/2 : ℚ) * (1/2) then
        let frictionScalar := qpow (1 - b1.friction) (dt * 60)
        { b1 with vx := b1.vx * frictionScalar, vy := b1.vy * frictionScalar }
      else
        { b1 with vx := 0, vy := 0 }
    checkWorldBounds bounds b2

/-- public checkDistance(b1, b2, threshold) of physics.ts. -/
def checkDistance (b1 b2 : Body) (threshold : ℚ) : Bool :=
  let dx := b1.x - b2.x
  let dy := b1.y - b2.y
  decide (dx * dx + dy * dy ≤ threshold * threshold)

/-- private resolveOverlap(b1, b2, nx, ny, overlap) of physics.ts. -/
def resolveOverlap (b1 b2 : Body) (nx ny overlap : ℚ) : Body × Body :=
  let factor := (1/2 : ℚ) * overlap
  if !b1.isStatic && !b2.isStatic then
    ({ b1 with x := b1.x - nx * factor, y := b1.y - ny * factor },
     { b2 with x := b2.x + nx * factor, y := b2.y + ny * factor })
  else if !b1.isStatic then
    ({ b1 with x := b1.x - nx * overlap, y := b1.y - ny * overlap }, b2)
  else if !b2.isStatic then
    (b1, { b2 with x := b2.x + nx * overlap, y := b2.y + ny * overlap })
  else
    (b1, b2)

/-- private calculateImpulse(b1, b2, nx, ny) of physics.ts. -/
def calculateImpulse (b1 b2 : Body) (nx ny : ℚ) : Body × Body × List CollisionEvent :=
  let dvx := b2.vx - b1.vx
  let dvy := b2.vy - b1.vy
  let velNormal := dvx * nx + dvy * ny
  if velNormal > 0 then (b1, b2, [])
  else
    let e := min b1.restitution b2.restitution
    let invM1 := if b1.isStatic then 0 else 1 / b1.mass
    let invM2 := if b2.isStatic then 0 else 1 / b2.mass
    let j := -(1 + e) * velNormal / (invM1 + invM2)
    let ix := j * nx
    let iy := j * ny
    let b1' := if !b1.isStatic then
        { b1 with vx := b1.vx - ix * invM1, vy := b1.vy - iy * invM1 }
      else b1
    let b2' := if !b2.isStatic then
        { b2 with vx := b2.vx + ix * invM2, vy := b2.vy + iy * invM2 }
      else b2
    let force := |j|
    let ev1 := if b1.hasCallback then [⟨b1.id, b2.id, force⟩] else []
    let ev2 := if b2.hasCallback then [⟨b2.id, b1.id, force⟩] else []
    (b1', b2', ev1 ++ ev2)

/-- private resolveCircleCollision(b1, b2) of physics.ts. -/
def resolveCircleCollision (b1 b2 : Body) : Body × Body × List CollisionEvent :=
  let dx := b2.x - b1.x
  let dy := b2.y - b1.y
  let distSq := dx * dx + dy * dy
  let radSum := b1.radius + b2.radius
  if distSq < radSum * radSum ∧ distSq > 0 then
    let dist := ratSqrt distSq
    let nx := dx / dist
    let ny := dy / dist
    let moved := resolveOverlap b1 b2 nx ny (radSum - dist)
    calculateImpulse moved.1 moved.2 nx ny
  else
    (b1, b2, [])

/-- private resolveCircleRectCollision(c, r) of physics.ts. -/
def resolveCircleRectCollision (c r : Body) : Body × Body × List CollisionEvent :=
  let closestX := max r.x (min c.x (r.x + r.width))
  let closestY := max r.y (min c.y (r.y + r.height))
  let dx := c.x - closestX
  let dy := c.y - closestY
  let distSq := dx * dx + dy * dy
  let rad := c.radius
  if distSq < rad * rad ∧ distSq > 0 then
    let dist := ratSqrt distSq
    let nx := dx / dist
    let ny := dy / dist
    if !c.isStatic then
      let c1 := { c with x := c.x + nx * (rad - dist), y := c.y + ny * (rad - dist) }
      let dot := c1.vx * nx + c1.vy * ny
      let c2 := { c1 with vx := c1.vx - 2 * dot * nx * c.restitution,
                          vy := c1.vy - 2 * dot * ny * c.restitution }
      let ev := if c.hasCallback then [⟨c.id, r.id, |dot * 2|⟩] else []
      (c2, r, ev)
    else (c, r, [])
  else
    (c, r, [])

/-- private resolveCollision(b1, b2) of physics.ts: dispatch on shapes.
For a rectangle-circle pair the source calls
resolveCircleRectCollision(b2, b1); the model swaps the results back into
the (b1, b2) slot order. -/
def resolveCollision (b1 b2 : Body) : Body × Body × List CollisionEvent :=
  match b1.type, b2.type with
  | BodyType.circle, BodyType.circle => resolveCircleCollision b1 b2
  | BodyType.circle, BodyType.rectangle => resolveCircleRectCollision b1 b2
  | BodyType.rectangle, BodyType.circle =>
      let res := resolveCircleRectCollision b2 b1
      (res.2.1, res.1, res.2.2)
  | BodyType.rectangle, BodyType.rectangle => (b1, b2, [])

/-- Inner j-loop of the pairwise pass in update: resolve the given body
against each later body in order, threading the mutations. -/
def resolveSeq : Body → List Body → Body × List Body × List CollisionEvent
  | b, [] => (b, [], [])
  | b, c :: rest =>
      let r1 := resolveCollision b c
      let r2 := resolveSeq r1.1 rest
      (r2.1, r1.2.1 :: r2.2.1, r1.2.2 ++ r2.2.2)

/-- Outer i-loop of the pairwise pass: the fuel argument is the list
length, which resolveSeq preserves, so the loop visits every i exactly
as the source double loop does. -/
def collideLoop : ℕ → List Body → List Body × List CollisionEvent
  | 0, l => (l, [])
  | _ + 1, [] => ([], [])
  | n + 1, b :: rest =>
      let r1 := resolveSeq b rest
      let r2 := collideLoop n r1.2.1
      (r1.1 :: r2.1, r1.2.2 ++ r2.2)

def collideAll (l : List Body) : List Body × List CollisionEvent :=
  collideLoop l.length l

/-- public update(bodies, dt) of physics.ts: integrate and clamp every
body, then resolve every unordered pair i < j in order. -/
def update (bounds : Bounds) (bodies : List Body) (dt : ℚ) :
    List Body × List CollisionEvent :=
  let step1 := bodies.map (fun b => updateBody bounds b dt)
  let moved := step1.map Prod.fst
  let ev1 := step1.foldr (fun p acc => p.2 ++ acc) []
  let res := collideAll moved
  (res.1, ev1 ++ res.2)

end PhysicsEngine

/-! Game layer: the authoritative decomposed variant of the match logic,
src/src/game.ts (RetroMarbleGame) delegating to src/src/eventmanager.ts
(EventManager), with match-wide data from src/src/databus.ts (DataBus). -/

inductive GameState where
  | MENU
  | PLAYING
  | AIMING
  | MOVING
  | SETTLING
  | GAME_OVER
deriving DecidableEq, Repr

inductive Turn where
  | PLAYER
  | AI
deriving DecidableEq, Repr

inductive MenuState where
  | MAIN
  | HELP
  | GAME_OVER
  | NONE
deriving DecidableEq, Repr

/-- databus.config.TURN_TIME. -/
def TURN_TIME : ℚ := 30

/-- databus.gravity. -/
def gravity : ℚ := 3/5

/-- databus.airResistance. -/
def airResistance : ℚ := 99/100

/-- Combined mutable match state: the RetroMarbleGame fields (state,
menuState, turn, turnTimer) together with the DataBus fields the core
reads and writes (balls, obstacles, progression, world size).  The
outcome field records the win flag passed to menu.showGameOver, none
while no round has ended the match. -/
structure GameSt where
  state : GameState
  menuState : MenuState
  turn : Turn
  turnTimer : ℚ
  balls : List Body
  obstacles : List Body
  width : ℚ
  height : ℚ
  playerExp : ℕ := 0
  playerGrade : ℕ := 1
  handSpan : ℚ := 120
  maxForce : ℚ := 800
  outcome : Option Bool := none
deriving DecidableEq, Repr

/-- databus.getPlayerBall(): first ball with the isPlayer flag. -/
def getPlayerBall (st : GameSt) : Option Body :=
  st.balls.find? (fun b => b.isPlayer)

/-- databus.getEnemyBall(): first ball with the isEnemy flag. -/
def getEnemyBall (st : GameSt) : Option Body :=
  st.balls.find? (fun b => b.isEnemy)

/-- While loop of databus.addExp: every full 100 experience grants a grade
and permanently raises hand span and maximum force. -/
def levelUp (st : GameSt) : GameSt :=
  if _h : 100 ≤ st.playerExp then
    levelUp { st with playerExp := st.playerExp - 100, playerGrade := st.playerGrade + 1,
                      handSpan := st.handSpan + 5, maxForce := st.maxForce + 50 }
  else st
termination_by st.playerExp
decreasing_by
  show st.playerExp - 100 < st.playerExp
  omega

/-- databus.addExp(amount). -/
def addExp (amount : ℕ) (st : GameSt) : GameSt :=
  levelUp { st with playerExp := st.playerExp + amount }

/-- RetroMarbleGame.setMenuState: any menu state other than NONE also
forces the game state to MENU. -/
def setMenuState (m : MenuState) (st : GameSt) : GameSt :=
  let st1 := { st with menuState := m }
  if m ≠ MenuState.NONE then { st1 with state := GameState.MENU } else st1

/-- RetroMarbleGame.switchTurn. -/
def switchTurn : Turn → Turn
  | Turn.PLAYER => Turn.AI
  | Turn.AI => Turn.PLAYER

/-- EventManager.handleWin: award 20 experience, show the game-over menu
with the win flag set. -/
def handleWin (st : GameSt) : GameSt :=
  let st1 := addExp 20 st
  let st2 := setMenuState MenuState.GAME_OVER st1
  { st2 with outcome := some true }

/-- EventManager.handleLose: show the game-over menu with the lose flag. -/
def handleLose (st : GameSt) : GameSt :=
  let st1 := setMenuState MenuState.GAME_OVER st
  { st1 with outcome := some false }

/-- EventManager.settleRound: evaluate the capture test between the two
primary balls; on capture the acting side wins, otherwise the turn
passes and a fresh turn countdown starts in the PLAYING state. -/
def settleRound (st : GameSt) : GameSt :=
  match getPlayerBall st, getEnemyBall st with
  | some player, some enemy =>
      if PhysicsEngine.checkDistance player enemy st.handSpan then
        if st.turn = Turn.PLAYER then handleWin st else handleLose st
      else
        { st with turn := switchTurn st.turn, state := GameState.PLAYING,
                  turnTimer := TURN_TIME }
  | _, _ => st

/-- Set the velocity of the first ball carrying the isEnemy flag (the
object mutated by EventManager.executeAITurn). -/
def setEnemyVel (vx vy : ℚ) : List Body → List Body
  | [] => []
  | b :: rest =>
      if b.isEnemy then { b with vx := vx, vy := vy } :: rest
      else b :: setEnemyVel vx vy rest

/-- EventManager.executeAITurn.  The source computes
angle = atan2(dy, dx), adds a bounded random error, and launches with
cos/sin of the resulting angle.  The random error and the transcendental
cos/sin are irrational in general, so the model receives the two values
cos(finalAngle) and sin(finalAngle) as the parameters cosA and sinA; the
force magnitude, the state change and the timer reset follow the source
exactly. -/
def executeAITurn (cosA sinA : ℚ) (st : GameSt) : GameSt :=
  match getEnemyBall st, getPlayerBall st with
  | some enemy, some player =>
      let dx := player.x - enemy.x
      let dy := player.y - enemy.y
      let dist := ratSqrt (dx * dx + dy * dy)
      let force := min 600 (dist * (3/2))
      let vx := cosA * force * (1/2)
      let vy := sinA * force * (1/2)
      { st with balls := setEnemyVel vx vy st.balls,
                state := GameState.MOVING, turnTimer := TURN_TIME }
  | _, _ => st

/-- Physics portion of RetroMarbleGame.update: run the engine over
balls ++ obstacles (mutated in place in the source, modelled by
splitting the returned list at the ball count), then add gravity and
air resistance to every non-static ball. -/
def physPhase (st : GameSt) (dt : ℚ) : GameSt :=
  let allBodies := st.balls ++ st.obstacles
  let res := PhysicsEngine.update ⟨st.width, st.height⟩ allBodies dt
  let balls1 := res.1.take st.balls.length
  let obstacles1 := res.1.drop st.balls.length
  let balls2 := balls1.map (fun b =>
    if !b.isStatic then
      { b with vx := b.vx * airResistance, vy := (b.vy + gravity * dt) * airResistance }
    else b)
  { st with balls := balls2, obstacles := obstacles1 }

/-- Settlement scan of RetroMarbleGame.update: some non-static ball still
has a velocity component exceeding 0.1 in absolute value. -/
def isMoving (balls : List Body) : Bool :=
  balls.any (fun b =>
    !b.isStatic && (decide (|b.vx| > (1/10 : ℚ)) || decide (|b.vy| > (1/10 : ℚ))))

/-- RetroMarbleGame.update(dt) of the authoritative variant: run the
physics phase in every in-game state, transition MOVING to SETTLING when
no ball moves (the deferred settleRound call is modelled separately by
the settleRound function), then run the AI-turn countdown, which only
ticks in the PLAYING state during the AI turn and fires
executeAITurn when it reaches zero. -/
def gameUpdate (cosA sinA : ℚ) (st : GameSt) (dt : ℚ) : GameSt :=
  let st1 :=
    if st.state = GameState.PLAYING ∨ st.state = GameState.AIMING ∨
       st.state = GameState.MOVING ∨ st.state = GameState.SETTLING then
      let stp := physPhase st dt
      if stp.state = GameState.MOVING ∧ isMoving stp.balls = false then
        { stp with state := GameState.SETTLING }
      else stp
    else st
  if st1.state = GameState.PLAYING ∧ st1.turn = Turn.AI then
    let st2 := { st1 with turnTimer := st1.turnTimer - dt }
    if st2.turnTimer ≤ 0 then executeAITurn cosA sinA st2 else st2
  else st1

/-! Predicates used to state the claims. -/

/-- A body is inside the world bounds with its radius margin, the
containment the specification asserts. -/
def inBounds (bounds : Bounds) (b : Body) : Prop :=
  b.radius ≤ b.x ∧ b.x + b.radius ≤ bounds.width ∧
  b.radius ≤ b.y ∧ b.y + b.radius ≤ bounds.height

instance (bounds : Bounds) (b : Body) : Decidable (inBounds bounds b) := by
  unfold inBounds; infer_instance

/-- A pair the collision pass leaves untouched: resolving it returns both
bodies unchanged and fires no callback. -/
def noCollide (b1 b2 : Body) : Prop :=
  PhysicsEngine.resolveCollision b1 b2 = (b1, b2, [])

instance (b1 b2 : Body) : Decidable (noCollide b1 b2) := by
  unfold noCollide; infer_instance

/-! Concrete instances used by the theorems below. -/

/-- Dynamic circle resting exactly on the left wall margin. -/
def c1Ball1 : Body :=
  { id := "a", type := BodyType.circle, x := 10, y := 50, vx := 0, vy := 0,
    mass := 1, radius := 10, restitution := 1/2, friction := 0 }

/-- Dynamic circle overlapping c1Ball1 from the right. -/
def c1Ball2 : Body :=
  { id := "b", type := BodyType.circle, x := 15, y := 50, vx := 0, vy := 0,
    mass := 1, radius := 10, restitution := 1/2, friction := 0 }

/-- The wall-bounce scenario body: circle at (10, 50), radius 10, velocity
(-100, 0), restitution 0.8, friction 0, with a collision callback. -/
def c2Ball : Body :=
  { id := "p", type := BodyType.circle, x := 10, y := 50, vx := -100, vy := 0,
    mass := 1, radius := 10, restitution := 4/5, friction := 0, hasCallback := true }

/-- Light dynamic circle (mass 1). -/
def c6Ball1 : Body :=
  { id := "l", type := BodyType.circle, x := 100, y := 100, vx := 0, vy := 0,
    mass := 1, radius := 10, restitution := 1/2, friction := 0 }

/-- Heavy dynamic circle (mass 3) overlapping c6Ball1. -/
def c6Ball2 : Body :=
  { id := "h", type := BodyType.circle, x := 116, y := 100, vx := 0, vy := 0,
    mass := 3, radius := 10, restitution := 1/2, friction := 0 }

/-- Dynamic circle whose speed 0.4 is already below the snap threshold. -/
def c7Ball : Body :=
  { id := "s", type := BodyType.circle, x := 100, y := 100, vx := 2/5, vy := 0,
    mass := 1, radius := 10, restitution := 1/2, friction := 1/50 }

/-- Player ball at rest used in the game-layer runs (databus.createBall
parameters: radius 15, mass 1, restitution 0.7, friction 0.02). -/
def c8Ball : Body :=
  { id := "player", type := BodyType.circle, x := 100, y := 100, vx := 0, vy := 0,
    mass := 1, radius := 15, restitution := 7/10, friction := 1/50, isPlayer := true }

/-- Match state in the MOVING phase with every ball at rest. -/
def c8St : GameSt :=
  { state := GameState.MOVING, menuState := MenuState.NONE, turn := Turn.PLAYER,
    turnTimer := 30, balls := [c8Ball], obstacles := [], width := 375, height := 667 }

/-- Player ball of the AI-timeout run. -/
def c4Player : Body :=
  { id := "player", type := BodyType.circle, x := 100, y := 667/2, vx := 0, vy := 0,
    mass := 1, radius := 15, restitution := 7/10, friction := 1/50, isPlayer := true }

/-- Enemy ball of the AI-timeout run, at rest 175 units from the player. -/
def c4Enemy : Body :=
  { id := "enemy", type := BodyType.circle, x := 275, y := 667/2, vx := 0, vy := 0,
    mass := 1, radius := 15, restitution := 7/10, friction := 1/50, isEnemy := true }

/-- Match state in the PLAYING phase, AI to act, with the turn countdown
about to elapse and no launch applied. -/
def c4St : GameSt :=
  { state := GameState.PLAYING, menuState := MenuState.NONE, turn := Turn.AI,
    turnTimer := 1/2, balls := [c4Player, c4Enemy], obstacles := [],
    width := 375, height := 667 }

/-! Supporting lemmas. -/

lemma isqrtGo_correct :
    ∀ (fuel k n t : ℕ), k ≤ t → t ≤ k + fuel → t * t ≤ n →
      n < (t + 1) * (t + 1) → isqrtGo fuel k n = t := by
  intro fuel
  induction fuel with
  | zero =>
      intro k n t h1 h2 h3 h4
      have hkt : k = t := by omega
      simp [isqrtGo, hkt]
  | succ f ih =>
      intro k n t h1 h2 h3 h4
      by_cases hkt : k = t
      · subst hkt
        have hcond : ¬ ((k + 1) * (k + 1) ≤ n) := by omega
        simp [isqrtGo, hcond]
      · have hklt : k + 1 ≤ t := by omega
        have hcond : (k + 1) * (k + 1) ≤ n :=
          le_trans (Nat.mul_le_mul hklt hklt) h3
        simp only [isqrtGo, if_pos hcond]
        exact ih (k + 1) n t hklt (by omega) h3 h4

lemma isqrt_eq (n t : ℕ) (h3 : t * t ≤ n) (h4 : n < (t + 1) * (t + 1)) :
    isqrt n = t := by
  have ht : t ≤ t * t := by nlinarith
  exact isqrtGo_correct n 0 n t (Nat.zero_le t) (by omega) h3 h4

lemma ratSqrt_eq (q : ℚ) (s : ℕ) (hnum : q.num.toNat = s * s) (hden : q.den = 1) :
    ratSqrt q = s := by
  have hlt : s * s < (s + 1) * (s + 1) := by nlinarith
  unfold ratSqrt
  rw [hnum, hden, isqrt_eq (s * s) s le_rfl hlt,
      isqrt_eq 1 1 le_rfl (by omega)]
  norm_num

lemma checkWorldBounds_contains (bd : Bounds) (b : Body)
    (hw : 2 * b.radius ≤ bd.width) (hh : 2 * b.radius ≤ bd.height) :
    inBounds bd (PhysicsEngine.checkWorldBounds bd b).1 := by
  simp only [PhysicsEngine.checkWorldBounds, PhysicsEngine.reflect]
  split_ifs <;>
    simp_all only [inBounds] <;>
    refine ⟨?_, ?_, ?_, ?_⟩ <;>
    linarith

lemma updateBody_contains (bd : Bounds) (b : Body) (dt : ℚ)
    (hs : b.isStatic = false)
    (hw : 2 * b.radius ≤ bd.width) (hh : 2 * b.radius ≤ bd.height) :
    inBounds bd (PhysicsEngine.updateBody bd b dt).1 := by
  simp only [PhysicsEngine.updateBody, hs, Bool.false_eq_true, if_false]
  split_ifs with hsp
  · exact checkWorldBounds_contains bd _ hw hh
  · exact checkWorldBounds_contains bd _ hw hh

/-! Theorems. -/

/-- C1 counterexample: the claim asserts containment in
[radius, width - radius] x [radius, height - radius] at the end of every
update call, including steps in which pairwise collision resolution moves
bodies after the boundary clamp.  Two overlapping circles of radius 10
with the first resting exactly on the left margin refute it: the overlap
correction of the collision pass pushes the first body to x = 5/2, below
its radius 10, and no re-clamp follows. -/
theorem overlap_correction_escapes_bounds :
    ((PhysicsEngine.update ⟨400, 400⟩ [c1Ball1, c1Ball2] 1).1.map Body.x)
        = [5/2, 45/2] ∧
    ((PhysicsEngine.update ⟨400, 400⟩ [c1Ball1, c1Ball2] 1).1.map Body.radius)
        = [10, 10] ∧
    ¬ ((10 : ℚ) ≤ 5/2) := by
  refine ⟨?_, ?_, by norm_num⟩ <;>
    norm_num [PhysicsEngine.update, PhysicsEngine.updateBody,
      PhysicsEngine.checkWorldBounds, PhysicsEngine.reflect, qpow,
      PhysicsEngine.collideAll, PhysicsEngine.collideLoop,
      PhysicsEngine.resolveSeq, PhysicsEngine.resolveCollision,
      PhysicsEngine.resolveCircleCollision, PhysicsEngine.resolveOverlap,
      PhysicsEngine.calculateImpulse, ratSqrt, isqrt, isqrtGo,
      c1Ball1, c1Ball2]

/-- C2 counterexample: in the wall-bounce scenario the collision callback
fires exactly once, but with force 80 — the post-reflection speed — not
the pre-reflection speed 100 the claim states, because
PhysicsEngine.reflect reassigns the velocity before reading it for the
callback argument. -/
theorem wall_bounce_force_is_post_reflection :
    (PhysicsEngine.update ⟨400, 400⟩ [c2Ball] 1).2 = [⟨"p", "wall", 80⟩] ∧
    ((80 : ℚ) ≠ 100) := by
  refine ⟨?_, by norm_num⟩
  norm_num [PhysicsEngine.update, PhysicsEngine.updateBody,
    PhysicsEngine.checkWorldBounds, PhysicsEngine.reflect, qpow,
    PhysicsEngine.collideAll, PhysicsEngine.collideLoop,
    PhysicsEngine.resolveSeq, c2Ball]

/-- C2 amended: after one update with dt = 1 in the 400-wide world the body
ends at x = 10 with vx = +80, and its collision callback fires exactly
once with force 80, the post-reflection speed (restitution times the
pre-reflection speed 100). -/
theorem wall_bounce_scenario :
    ((PhysicsEngine.update ⟨400, 400⟩ [c2Ball] 1).1.map (fun b => (b.x, b.vx)))
        = [((10 : ℚ), (80 : ℚ))] ∧
    (PhysicsEngine.update ⟨400, 400⟩ [c2Ball] 1).2 = [⟨"p", "wall", 80⟩] := by
  constructor <;>
    norm_num [PhysicsEngine.update, PhysicsEngine.updateBody,
      PhysicsEngine.checkWorldBounds, PhysicsEngine.reflect, qpow,
      PhysicsEngine.collideAll, PhysicsEngine.collideLoop,
      PhysicsEngine.resolveSeq, c2Ball]

/-- C6 counterexample: two overlapping dynamic circles of masses 1 and 3
are each displaced by exactly half the penetration depth 4, so the
lighter body is not pushed farther; the inverse-mass share the claim
predicts for the lighter body, (1/1) / (1/1 + 1/3) * 4 = 3, differs from
the actual displacement 2. -/
theorem overlap_split_ignores_mass :
    (PhysicsEngine.resolveCircleCollision c6Ball1 c6Ball2).1.x = 98 ∧
    (PhysicsEngine.resolveCircleCollision c6Ball1 c6Ball2).2.1.x = 118 ∧
    ¬ ((100 : ℚ) - 98 = (1/1) / ((1/1) + (1/3)) * 4) := by
  have h256 : ratSqrt 256 = 16 := by
    rw [ratSqrt_eq 256 16 (by decide) (by decide)]; norm_num
  refine ⟨?_, ?_, by norm_num⟩ <;>
    norm_num [PhysicsEngine.resolveCircleCollision, PhysicsEngine.resolveOverlap,
      PhysicsEngine.calculateImpulse, h256, c6Ball1, c6Ball2]

/-- C7 counterexample: a single in-bounds dynamic body with speed 0.4,
below the snap threshold 0.5 and with no collision pending, still has its
position advanced by velocity times dt on the first update call, moving
from x = 100 to x = 502/5. -/
theorem first_step_below_threshold_moves :
    c7Ball.vx * c7Ball.vx + c7Ball.vy * c7Ball.vy < (1/2 : ℚ) * (1/2) ∧
    inBounds ⟨400, 400⟩ c7Ball ∧
    ((PhysicsEngine.update ⟨400, 400⟩ [c7Ball] 1).1.map Body.x) = [502/5] ∧
    ¬ ((502/5 : ℚ) = 100) := by
  refine ⟨by norm_num [c7Ball], by norm_num [inBounds, c7Ball], ?_, by norm_num⟩
  norm_num [PhysicsEngine.update, PhysicsEngine.updateBody,
    PhysicsEngine.checkWorldBounds, PhysicsEngine.reflect, qpow,
    PhysicsEngine.collideAll, PhysicsEngine.collideLoop,
    PhysicsEngine.resolveSeq, c7Ball]

/-- C8 counterexample: in a MOVING state whose only dynamic ball is fully
at rest (speed 0, below the friction-snap threshold 0.5), an update with
dt = 0.2 does not transition to SETTLING: the gravity and air-resistance
pass leaves the ball with vy = 297/2500 and the settlement scan uses the
stricter per-component bound 0.1 on that value, so the state machine
stays in MOVING even though every speed was below the snap threshold. -/
theorem settling_threshold_differs :
    c8Ball.vx * c8Ball.vx + c8Ball.vy * c8Ball.vy ≤ (1/2 : ℚ) * (1/2) ∧
    c8St.state = GameState.MOVING ∧
    (gameUpdate 0 0 c8St (1/5)).state = GameState.MOVING ∧
    GameState.MOVING ≠ GameState.SETTLING := by
  refine ⟨by norm_num [c8Ball], by norm_num [c8St], ?_, by simp⟩
  norm_num [abs_le, lt_abs, gameUpdate, physPhase, isMoving, gravity, airResistance,
    PhysicsEngine.update, PhysicsEngine.updateBody,
    PhysicsEngine.checkWorldBounds, PhysicsEngine.reflect, qpow,
    PhysicsEngine.collideAll, PhysicsEngine.collideLoop,
    PhysicsEngine.resolveSeq, c8St, c8Ball]
  simp

/-- C4 counterexample: with the AI side active in the PLAYING (aiming
capable) state, no launch applied, and the countdown elapsing during the
update, the code does not forfeit the turn: the active side stays AI and
the enemy ball receives a launch velocity (vx becomes -525/4, from rest).
The parameters cosA = -1, sinA = 0 are the exact values of cos and sin of
the launch angle atan2(0, -175) = pi when the random angular error is 0,
an admissible sample.  The countdown cannot elapse for the human side at
all, because the source only decrements it during the AI turn. -/
theorem ai_timeout_fires_shot :
    c4St.turn = Turn.AI ∧
    (c4St.balls.map Body.vx) = [0, 0] ∧
    (gameUpdate (-1) 0 c4St 1).turn = Turn.AI ∧
    (gameUpdate (-1) 0 c4St 1).state = GameState.MOVING ∧
    ((gameUpdate (-1) 0 c4St 1).balls.map Body.vx) = [0, -525/4] ∧
    ¬ ((-525/4 : ℚ) = 0) := by
  have h30625 : ratSqrt 30625 = 175 := by
    rw [ratSqrt_eq 30625 175 (by decide) (by decide)]; norm_num
  refine ⟨by norm_num [c4St], by norm_num [c4St, c4Player, c4Enemy], ?_, ?_, ?_, by norm_num⟩ <;>
    norm_num [abs_le, lt_abs, gameUpdate, physPhase, isMoving, gravity, airResistance,
      executeAITurn, getPlayerBall, getEnemyBall, setEnemyVel, List.find?,
      TURN_TIME, h30625,
      PhysicsEngine.update, PhysicsEngine.updateBody,
      PhysicsEngine.checkWorldBounds, PhysicsEngine.reflect, qpow,
      PhysicsEngine.collideAll, PhysicsEngine.collideLoop,
      PhysicsEngine.resolveSeq, PhysicsEngine.resolveCollision,
      PhysicsEngine.resolveCircleCollision,
      c4St, c4Player, c4Enemy]

/-- C1 amended: for a single non-static circle body (so that the pairwise
collision pass has no pair to resolve) whose diameter fits the world,
every update call ends with the body inside
[radius, width - radius] x [radius, height - radius], whatever its state
before the call; since update preserves radius and the static flag, this
covers every step of any update sequence.  The unrestricted claim is
false: the collision pass runs after the boundary clamp and can push a
body back out (see the counterexample). -/
theorem single_body_containment (bd : Bounds) (b : Body) (dt : ℚ)
    (hs : b.isStatic = false)
    (hw : 2 * b.radius ≤ bd.width) (hh : 2 * b.radius ≤ bd.height) :
    (PhysicsEngine.update bd [b] dt).1 = [(PhysicsEngine.updateBody bd b dt).1] ∧
    inBounds bd (PhysicsEngine.updateBody bd b dt).1 := by
  constructor
  · rfl
  · exact updateBody_contains bd b dt hs hw hh

/-- Witness for single_body_containment at the wall-bounce body. -/
theorem single_body_containment_witness :
    (PhysicsEngine.update ⟨400, 400⟩ [c2Ball] 1).1
        = [(PhysicsEngine.updateBody ⟨400, 400⟩ c2Ball 1).1] ∧
    inBounds ⟨400, 400⟩ (PhysicsEngine.updateBody ⟨400, 400⟩ c2Ball 1).1 :=
  single_body_containment ⟨400, 400⟩ c2Ball 1 rfl (by norm_num [c2Ball])
    (by norm_num [c2Ball])

/-- C6 amended: the overlap correction splits the penetration depth half
and half between two dynamic bodies regardless of their masses, moves a
lone dynamic body by the full depth, and never moves a static body. -/
theorem overlap_correction_cases (b1 b2 : Body) (nx ny overlap : ℚ) :
    (b1.isStatic = false → b2.isStatic = false →
      (PhysicsEngine.resolveOverlap b1 b2 nx ny overlap).1.x
          = b1.x - nx * (1/2 * overlap) ∧
      (PhysicsEngine.resolveOverlap b1 b2 nx ny overlap).1.y
          = b1.y - ny * (1/2 * overlap) ∧
      (PhysicsEngine.resolveOverlap b1 b2 nx ny overlap).2.x
          = b2.x + nx * (1/2 * overlap) ∧
      (PhysicsEngine.resolveOverlap b1 b2 nx ny overlap).2.y
          = b2.y + ny * (1/2 * overlap)) ∧
    (b1.isStatic = false → b2.isStatic = true →
      (PhysicsEngine.resolveOverlap b1 b2 nx ny overlap).1.x = b1.x - nx * overlap ∧
      (PhysicsEngine.resolveOverlap b1 b2 nx ny overlap).1.y = b1.y - ny * overlap ∧
      (PhysicsEngine.resolveOverlap b1 b2 nx ny overlap).2 = b2) ∧
    (b1.isStatic = true → b2.isStatic = false →
      (PhysicsEngine.resolveOverlap b1 b2 nx ny overlap).1 = b1 ∧
      (PhysicsEngine.resolveOverlap b1 b2 nx ny overlap).2.x = b2.x + nx * overlap ∧
      (PhysicsEngine.resolveOverlap b1 b2 nx ny overlap).2.y = b2.y + ny * overlap) ∧
    (b1.isStatic = true → b2.isStatic = true →
      PhysicsEngine.resolveOverlap b1 b2 nx ny overlap = (b1, b2)) := by
  refine ⟨?_, ?_, ?_, ?_⟩ <;> intro h1 h2 <;>
    simp [PhysicsEngine.resolveOverlap, h1, h2]

/-- Witness for overlap_correction_cases: the two dynamic circles of
masses 1 and 3 each move by half the depth 4. -/
theorem overlap_correction_cases_witness :
    (PhysicsEngine.resolveOverlap c6Ball1 c6Ball2 1 0 4).1.x
        = c6Ball1.x - 1 * (1/2 * 4) ∧
    (PhysicsEngine.resolveOverlap c6Ball1 c6Ball2 1 0 4).1.y
        = c6Ball1.y - 0 * (1/2 * 4) ∧
    (PhysicsEngine.resolveOverlap c6Ball1 c6Ball2 1 0 4).2.x
        = c6Ball2.x + 1 * (1/2 * 4) ∧
    (PhysicsEngine.resolveOverlap c6Ball1 c6Ball2 1 0 4).2.y
        = c6Ball2.y + 0 * (1/2 * 4) :=
  (overlap_correction_cases c6Ball1 c6Ball2 1 0 4).1 rfl rfl

/-- C9: exactly coincident geometry is treated as no collision.  For two
circles with identical centers, and for a circle whose center lies inside
the rectangle (so the clamped closest point coincides with the center and
the distance is zero), resolution returns both bodies unchanged and fires
no callback; the guarded early return also means the division by the
zero distance is never evaluated. -/
theorem zero_distance_no_collision (b1 b2 c r : Body)
    (hc1 : b1.type = BodyType.circle) (hc2 : b2.type = BodyType.circle)
    (hx : b1.x = b2.x) (hy : b1.y = b2.y)
    (hcc : c.type = BodyType.circle) (hrr : r.type = BodyType.rectangle)
    (h1 : r.x ≤ c.x) (h2 : c.x ≤ r.x + r.width)
    (h3 : r.y ≤ c.y) (h4 : c.y ≤ r.y + r.height) :
    PhysicsEngine.resolveCollision b1 b2 = (b1, b2, []) ∧
    PhysicsEngine.resolveCollision c r = (c, r, []) ∧
    PhysicsEngine.resolveCollision r c = (r, c, []) := by
  have hcr : PhysicsEngine.resolveCircleRectCollision c r = (c, r, []) := by
    simp [PhysicsEngine.resolveCircleRectCollision,
      min_eq_left h2, max_eq_right h1, min_eq_left h4, max_eq_right h3]
  refine ⟨?_, ?_, ?_⟩ <;>
    simp [PhysicsEngine.resolveCollision, hc1, hc2, hcc, hrr, hcr,
      PhysicsEngine.resolveCircleCollision, hx, hy]

/-- Circle used as the left body of the coincident-center witness. -/
def c9CircleA : Body :=
  { id := "ca", type := BodyType.circle, x := 50, y := 50, vx := 3, vy := 0,
    mass := 1, radius := 10, restitution := 1/2, friction := 0 }

/-- Circle placed at exactly the same center as c9CircleA. -/
def c9CircleB : Body :=
  { id := "cb", type := BodyType.circle, x := 50, y := 50, vx := -3, vy := 0,
    mass := 1, radius := 10, restitution := 1/2, friction := 0 }

/-- Static rectangle containing the center of c9CircleA. -/
def c9Rect : Body :=
  { id := "cr", type := BodyType.rectangle, x := 40, y := 40, vx := 0, vy := 0,
    mass := 0, width := 20, height := 20, isStatic := true, restitution := 1/2,
    friction := 1/2 }

/-- Witness for zero_distance_no_collision at coincident circles and a
circle centered inside a rectangle. -/
theorem zero_distance_no_collision_witness :
    PhysicsEngine.resolveCollision c9CircleA c9CircleB = (c9CircleA, c9CircleB, []) ∧
    PhysicsEngine.resolveCollision c9CircleA c9Rect = (c9CircleA, c9Rect, []) ∧
    PhysicsEngine.resolveCollision c9Rect c9CircleA = (c9Rect, c9CircleA, []) :=
  zero_distance_no_collision c9CircleA c9CircleB c9CircleA c9Rect
    rfl rfl rfl rfl rfl rfl
    (by norm_num [c9CircleA, c9Rect]) (by norm_num [c9CircleA, c9Rect])
    (by norm_num [c9CircleA, c9Rect]) (by norm_num [c9CircleA, c9Rect])

/-- C10: the impulse application of calculateImpulse conserves total
linear momentum for two dynamic bodies of nonzero mass: the impulse
vector is added to one side and subtracted from the other, each scaled by
the inverse mass, so the mass-weighted velocity sums are unchanged in
both components (also in the separating branch, where nothing changes). -/
theorem impulse_conserves_momentum (b1 b2 : Body) (nx ny : ℚ)
    (h1 : b1.isStatic = false) (h2 : b2.isStatic = false)
    (hm1 : b1.mass ≠ 0) (hm2 : b2.mass ≠ 0) :
    b1.mass * (PhysicsEngine.calculateImpulse b1 b2 nx ny).1.vx
        + b2.mass * (PhysicsEngine.calculateImpulse b1 b2 nx ny).2.1.vx
      = b1.mass * b1.vx + b2.mass * b2.vx ∧
    b1.mass * (PhysicsEngine.calculateImpulse b1 b2 nx ny).1.vy
        + b2.mass * (PhysicsEngine.calculateImpulse b1 b2 nx ny).2.1.vy
      = b1.mass * b1.vy + b2.mass * b2.vy := by
  simp only [PhysicsEngine.calculateImpulse, h1, h2, Bool.not_false, if_true,
    Bool.false_eq_true, if_false]
  split_ifs with hv <;>
    first
      | exact ⟨rfl, rfl⟩
      | (set J := -(1 + min b1.restitution b2.restitution)
              * ((b2.vx - b1.vx) * nx + (b2.vy - b1.vy) * ny)
              / (1 / b1.mass + 1 / b2.mass) with hJ
         exact ⟨by field_simp [hm1, hm2]; ring, by field_simp [hm1, hm2]; ring⟩)

/-- Witness for impulse_conserves_momentum at a head-on collision of
masses 1 and 3. -/
theorem impulse_conserves_momentum_witness :
    c6Ball1.mass * (PhysicsEngine.calculateImpulse c6Ball1 c6Ball2 1 0).1.vx
        + c6Ball2.mass * (PhysicsEngine.calculateImpulse c6Ball1 c6Ball2 1 0).2.1.vx
      = c6Ball1.mass * c6Ball1.vx + c6Ball2.mass * c6Ball2.vx ∧
    c6Ball1.mass * (PhysicsEngine.calculateImpulse c6Ball1 c6Ball2 1 0).1.vy
        + c6Ball2.mass * (PhysicsEngine.calculateImpulse c6Ball1 c6Ball2 1 0).2.1.vy
      = c6Ball1.mass * c6Ball1.vy + c6Ball2.mass * c6Ball2.vy :=
  impulse_conserves_momentum c6Ball1 c6Ball2 1 0 rfl rfl
    (by norm_num [c6Ball1]) (by norm_num [c6Ball2])

/-- C5: for an approaching pair (negative relative velocity along the unit
collision normal) with positive masses on the dynamic side(s) and at
least one dynamic body, the separating speed along the normal after
calculateImpulse equals min(e1, e2) times the approach speed exactly, and
therefore never exceeds it. -/
theorem restitution_ceiling (b1 b2 : Body) (nx ny : ℚ)
    (hn : nx * nx + ny * ny = 1)
    (happ : (b2.vx - b1.vx) * nx + (b2.vy - b1.vy) * ny < 0)
    (hm1 : b1.isStatic = false → 0 < b1.mass)
    (hm2 : b2.isStatic = false → 0 < b2.mass)
    (hdyn : b1.isStatic = false ∨ b2.isStatic = false) :
    ((PhysicsEngine.calculateImpulse b1 b2 nx ny).2.1.vx
        - (PhysicsEngine.calculateImpulse b1 b2 nx ny).1.vx) * nx
      + ((PhysicsEngine.calculateImpulse b1 b2 nx ny).2.1.vy
        - (PhysicsEngine.calculateImpulse b1 b2 nx ny).1.vy) * ny
      = min b1.restitution b2.restitution
          * (-((b2.vx - b1.vx) * nx + (b2.vy - b1.vy) * ny)) ∧
    ((PhysicsEngine.calculateImpulse b1 b2 nx ny).2.1.vx
        - (PhysicsEngine.calculateImpulse b1 b2 nx ny).1.vx) * nx
      + ((PhysicsEngine.calculateImpulse b1 b2 nx ny).2.1.vy
        - (PhysicsEngine.calculateImpulse b1 b2 nx ny).1.vy) * ny
      ≤ min b1.restitution b2.restitution
          * (-((b2.vx - b1.vx) * nx + (b2.vy - b1.vy) * ny)) := by
  have hif : ¬ ((b2.vx - b1.vx) * nx + (b2.vy - b1.vy) * ny > 0) :=
    not_lt.mpr (le_of_lt happ)
  refine ⟨?eq, le_of_eq ?eq⟩
  cases hb1 : b1.isStatic <;> cases hb2 : b2.isStatic
  · have hms1 := hm1 hb1
    have hms2 := hm2 hb2
    have hSne : (1 / b1.mass + 1 / b2.mass : ℚ) ≠ 0 :=
      ne_of_gt (by positivity)
    simp only [PhysicsEngine.calculateImpulse, hb1, hb2, Bool.not_false, if_true,
      Bool.false_eq_true, if_false, if_neg hif]
    have hkey := div_mul_cancel₀
        (-(1 + min b1.restitution b2.restitution)
          * ((b2.vx - b1.vx) * nx + (b2.vy - b1.vy) * ny)) hSne
    linear_combination (nx * nx + ny * ny) * hkey
      - (1 + min b1.restitution b2.restitution)
        * ((b2.vx - b1.vx) * nx + (b2.vy - b1.vy) * ny) * hn
  · have hms1 := hm1 hb1
    have hSne : (1 / b1.mass + 0 : ℚ) ≠ 0 := by
      rw [add_zero]
      exact ne_of_gt (by positivity)
    simp only [PhysicsEngine.calculateImpulse, hb1, hb2, Bool.not_false, Bool.not_true,
      if_true, Bool.false_eq_true, Bool.true_eq_false, if_false, if_neg hif]
    have hkey := div_mul_cancel₀
        (-(1 + min b1.restitution b2.restitution)
          * ((b2.vx - b1.vx) * nx + (b2.vy - b1.vy) * ny)) hSne
    linear_combination (nx * nx + ny * ny) * hkey
      - (1 + min b1.restitution b2.restitution)
        * ((b2.vx - b1.vx) * nx + (b2.vy - b1.vy) * ny) * hn
  · have hms2 := hm2 hb2
    have hSne : (0 + 1 / b2.mass : ℚ) ≠ 0 := by
      rw [zero_add]
      exact ne_of_gt (by positivity)
    simp only [PhysicsEngine.calculateImpulse, hb1, hb2, Bool.not_false, Bool.not_true,
      if_true, Bool.false_eq_true, Bool.true_eq_false, if_false, if_neg hif]
    have hkey := div_mul_cancel₀
        (-(1 + min b1.restitution b2.restitution)
          * ((b2.vx - b1.vx) * nx + (b2.vy - b1.vy) * ny)) hSne
    linear_combination (nx * nx + ny * ny) * hkey
      - (1 + min b1.restitution b2.restitution)
        * ((b2.vx - b1.vx) * nx + (b2.vy - b1.vy) * ny) * hn
  · rcases hdyn with h | h
    · rw [hb1] at h
      exact absurd h (by simp)
    · rw [hb2] at h
      exact absurd h (by simp)

/-- Body moving right, used as the left side of the head-on witness. -/
def c5Left : Body :=
  { id := "wl", type := BodyType.circle, x := 0, y := 0, vx := 10, vy := 0,
    mass := 2, radius := 10, restitution := 1/2, friction := 0 }

/-- Body moving left, used as the right side of the head-on witness. -/
def c5Right : Body :=
  { id := "wr", type := BodyType.circle, x := 19, y := 0, vx := -10, vy := 0,
    mass := 1, radius := 10, restitution := 9/10, friction := 0 }

/-- Witness for restitution_ceiling at a head-on approach with unit
normal (1, 0). -/
theorem restitution_ceiling_witness :
    ((PhysicsEngine.calculateImpulse c5Left c5Right 1 0).2.1.vx
        - (PhysicsEngine.calculateImpulse c5Left c5Right 1 0).1.vx) * 1
      + ((PhysicsEngine.calculateImpulse c5Left c5Right 1 0).2.1.vy
        - (PhysicsEngine.calculateImpulse c5Left c5Right 1 0).1.vy) * 0
      = min c5Left.restitution c5Right.restitution
          * (-((c5Right.vx - c5Left.vx) * 1 + (c5Right.vy - c5Left.vy) * 0)) ∧
    ((PhysicsEngine.calculateImpulse c5Left c5Right 1 0).2.1.vx
        - (PhysicsEngine.calculateImpulse c5Left c5Right 1 0).1.vx) * 1
      + ((PhysicsEngine.calculateImpulse c5Left c5Right 1 0).2.1.vy
        - (PhysicsEngine.calculateImpulse c5Left c5Right 1 0).1.vy) * 0
      ≤ min c5Left.restitution c5Right.restitution
          * (-((c5Right.vx - c5Left.vx) * 1 + (c5Right.vy - c5Left.vy) * 0)) :=
  restitution_ceiling c5Left c5Right 1 0 (by norm_num)
    (by norm_num [c5Left, c5Right])
    (fun _ => by norm_num [c5Left]) (fun _ => by norm_num [c5Right])
    (Or.inl rfl)

lemma checkWorldBounds_vel0 (bd : Bounds) (b : Body)
    (hvx : b.vx = 0) (hvy : b.vy = 0) :
    (PhysicsEngine.checkWorldBounds bd b).1.vx = 0 ∧
    (PhysicsEngine.checkWorldBounds bd b).1.vy = 0 := by
  simp only [PhysicsEngine.checkWorldBounds, PhysicsEngine.reflect]
  split_ifs <;> simp [hvx, hvy]

lemma updateBody_snap (bd : Bounds) (b : Body) (dt : ℚ)
    (hs : b.isStatic = false)
    (hv : b.vx * b.vx + b.vy * b.vy ≤ (1/2 : ℚ) * (1/2)) :
    (PhysicsEngine.updateBody bd b dt).1.vx = 0 ∧
    (PhysicsEngine.updateBody bd b dt).1.vy = 0 := by
  simp only [PhysicsEngine.updateBody, hs, Bool.false_eq_true, if_false]
  rw [if_neg (not_lt.mpr hv)]
  exact checkWorldBounds_vel0 bd _ rfl rfl

lemma updateBody_noop (bd : Bounds) (b : Body) (dt : ℚ)
    (h : b.isStatic = false → (b.vx = 0 ∧ b.vy = 0 ∧ inBounds bd b)) :
    PhysicsEngine.updateBody bd b dt = (b, []) := by
  cases hst : b.isStatic
  · obtain ⟨hvx, hvy, h1, h2, h3, h4⟩ := h hst
    have e1 : ¬ (b.x - b.radius < 0) := by linarith
    have e2 : ¬ (b.x + b.radius > bd.width) := by linarith
    have e3 : ¬ (b.y - b.radius < 0) := by linarith
    have e4 : ¬ (b.y + b.radius > bd.height) := by linarith
    simp only [PhysicsEngine.updateBody, hst, Bool.false_eq_true, if_false, hvx, hvy]
    norm_num [PhysicsEngine.checkWorldBounds, e1, e2, e3, e4]
    cases b
    simp_all
  · simp [PhysicsEngine.updateBody, hst]

lemma resolveSeq_noop (b : Body) (l : List Body)
    (h : ∀ c ∈ l, noCollide b c) :
    PhysicsEngine.resolveSeq b l = (b, l, []) := by
  induction l with
  | nil => rfl
  | cons c rest ih =>
      have hc : PhysicsEngine.resolveCollision b c = (b, c, []) := h c (by simp)
      have hr := ih (fun d hd => h d (by simp [hd]))
      simp [PhysicsEngine.resolveSeq, hc, hr]

lemma collideLoop_noop :
    ∀ (n : ℕ) (l : List Body), List.Pairwise noCollide l →
      PhysicsEngine.collideLoop n l = (l, []) := by
  intro n
  induction n with
  | zero => intro l _; rfl
  | succ m ih =>
      intro l hp
      cases l with
      | nil => rfl
      | cons b rest =>
          rw [List.pairwise_cons] at hp
          have h1 := resolveSeq_noop b rest hp.1
          have h2 := ih rest hp.2
          simp [PhysicsEngine.collideLoop, h1, h2]

lemma foldr_events_nil :
    ∀ l : List Body,
      (l.map (fun b => (b, ([] : List CollisionEvent)))).foldr
          (fun p acc => p.2 ++ acc) [] = ([] : List CollisionEvent) := by
  intro l
  induction l with
  | nil => rfl
  | cons b rest ih => simp [ih]

lemma update_noop (bd : Bounds) (bodies : List Body) (dt : ℚ)
    (h : ∀ b ∈ bodies, b.isStatic = false → (b.vx = 0 ∧ b.vy = 0 ∧ inBounds bd b))
    (hp : List.Pairwise noCollide bodies) :
    PhysicsEngine.update bd bodies dt = (bodies, []) := by
  have hmap : bodies.map (fun b => PhysicsEngine.updateBody bd b dt)
      = bodies.map (fun b => (b, ([] : List CollisionEvent))) :=
    List.map_congr_left (fun b hb => updateBody_noop bd b dt (h b hb))
  simp only [PhysicsEngine.update, hmap, PhysicsEngine.collideAll]
  rw [foldr_events_nil]
  have hmoved : (bodies.map (fun b => (b, ([] : List CollisionEvent)))).map Prod.fst
      = bodies := by
    rw [List.map_map]
    simp [Function.comp_def]
  rw [hmoved, collideLoop_noop bodies.length bodies hp]
  simp

/-- C7 amended: any update call snaps the velocity of every non-static
body whose speed is at or below the 0.5 threshold to exactly zero; and
once every dynamic body is fully at rest, within bounds, and no pair
resolves, an update with any dt returns the bodies unchanged and fires
no callback.  Hence positions are unchanged from the second such call
onward, but the first call may still translate each body by velocity
times dt, which refutes the "including the first such call" part of the
original claim (see the counterexample). -/
theorem settlement_idempotence :
    (∀ (bd : Bounds) (b : Body) (dt : ℚ), b.isStatic = false →
        b.vx * b.vx + b.vy * b.vy ≤ (1/2 : ℚ) * (1/2) →
        (PhysicsEngine.updateBody bd b dt).1.vx = 0 ∧
        (PhysicsEngine.updateBody bd b dt).1.vy = 0) ∧
    (∀ (bd : Bounds) (bodies : List Body) (dt : ℚ),
        (∀ b ∈ bodies, b.isStatic = false → (b.vx = 0 ∧ b.vy = 0 ∧ inBounds bd b)) →
        List.Pairwise noCollide bodies →
        PhysicsEngine.update bd bodies dt = (bodies, [])) :=
  ⟨fun bd b dt hs hv => updateBody_snap bd b dt hs hv,
   fun bd bodies dt h hp => update_noop bd bodies dt h hp⟩

/-- Dynamic circle fully at rest in the world interior. -/
def c7Rest : Body :=
  { id := "r", type := BodyType.circle, x := 200, y := 200, vx := 0, vy := 0,
    mass := 1, radius := 10, restitution := 1/2, friction := 1/50 }

/-- Witness for settlement_idempotence: the slow ball is snapped to zero
velocity by one update, and an update of the resting ball changes
nothing. -/
theorem settlement_idempotence_witness :
    ((PhysicsEngine.updateBody ⟨400, 400⟩ c7Ball 1).1.vx = 0 ∧
      (PhysicsEngine.updateBody ⟨400, 400⟩ c7Ball 1).1.vy = 0) ∧
    PhysicsEngine.update ⟨400, 400⟩ [c7Rest] 1 = ([c7Rest], []) :=
  ⟨settlement_idempotence.1 ⟨400, 400⟩ c7Ball 1 rfl (by norm_num [c7Ball]),
   settlement_idempotence.2 ⟨400, 400⟩ [c7Rest] 1
    (by
      intro b hb
      simp only [List.mem_singleton] at hb
      subst hb
      intro _
      refine ⟨rfl, rfl, ?_⟩
      norm_num [inBounds, c7Rest])
    (by simp)⟩

lemma isMoving_eq_false_iff (balls : List Body) :
    isMoving balls = false ↔
      ∀ b ∈ balls, b.isStatic = false →
        |b.vx| ≤ (1/10 : ℚ) ∧ |b.vy| ≤ (1/10 : ℚ) := by
  rw [isMoving, List.any_eq_false]
  constructor
  · intro h b hb hs
    have hx := h b hb
    rw [hs] at hx
    simp only [Bool.not_false, Bool.true_and, Bool.or_eq_true,
      decide_eq_true_eq, not_or, not_lt] at hx
    exact hx
  · intro h b hb
    cases hs : b.isStatic
    · have hx := h b hb hs
      simp only [hs, Bool.not_false, Bool.true_and, Bool.or_eq_true,
        decide_eq_true_eq, not_or, not_lt]
      exact hx
    · simp [hs]

/-- C8 amended: from the MOVING state, an update transitions to SETTLING
exactly when, after the physics step and the gravity and air-resistance
pass, every non-static ball has both velocity components at most 0.1 in
absolute value.  The trigger is this per-component 0.1 test on the
post-step velocities, not the 0.5 speed-magnitude threshold of the
friction snap (see the counterexample). -/
theorem moving_to_settling_iff (cosA sinA : ℚ) (st : GameSt) (dt : ℚ)
    (h : st.state = GameState.MOVING) :
    (gameUpdate cosA sinA st dt).state = GameState.SETTLING ↔
      ∀ b ∈ (physPhase st dt).balls, b.isStatic = false →
        |b.vx| ≤ (1/10 : ℚ) ∧ |b.vy| ≤ (1/10 : ℚ) := by
  simp only [gameUpdate]
  rw [if_pos (Or.inr (Or.inr (Or.inl h)))]
  split_ifs with h2 h3 h4 h5 h6 <;>
    first
      | exact h3.1.elim
      | exact absurd h5.1 (by simp only [physPhase]; rw [h]; simp)
      | exact iff_of_true rfl ((isMoving_eq_false_iff _).mp h2.2)
      | exact iff_of_false
          (fun hc => by
            simp only [physPhase] at hc
            rw [h] at hc
            simp at hc)
          (fun hall => h2
            ⟨by simp only [physPhase]; exact h, (isMoving_eq_false_iff _).mpr hall⟩)

/-- Witness for moving_to_settling_iff: with dt = 1/100 the gravity bump
leaves vy below 0.1, so the resting ball match does settle. -/
theorem moving_to_settling_iff_witness :
    (gameUpdate 0 0 c8St (1/100)).state = GameState.SETTLING :=
  (moving_to_settling_iff 0 0 c8St (1/100) rfl).mpr (by
    intro b hb hs
    norm_num [physPhase, gravity, airResistance,
      PhysicsEngine.update, PhysicsEngine.updateBody,
      PhysicsEngine.checkWorldBounds, PhysicsEngine.reflect, qpow,
      PhysicsEngine.collideAll, PhysicsEngine.collideLoop,
      PhysicsEngine.resolveSeq, c8St, c8Ball] at hb
    subst hb
    norm_num [abs_le])

/-- C3: when a round settles, the capture test checkDistance against the
hand-span threshold decides the outcome: on capture the side whose turn
it is wins (the outcome flag handed to the game-over menu is true exactly
when the player side acted) and the game-over presentation is shown;
otherwise the active side flips, the state returns to PLAYING (the state
from which aiming is initiated) and the countdown resets to the
configured turn duration. -/
theorem settleRound_capture_or_switch (st : GameSt) (p e : Body)
    (hp : getPlayerBall st = some p) (he : getEnemyBall st = some e) :
    (PhysicsEngine.checkDistance p e st.handSpan = true →
      (settleRound st).menuState = MenuState.GAME_OVER ∧
      (settleRound st).outcome = some (decide (st.turn = Turn.PLAYER))) ∧
    (PhysicsEngine.checkDistance p e st.handSpan = false →
      (settleRound st).turn = switchTurn st.turn ∧
      (settleRound st).state = GameState.PLAYING ∧
      (settleRound st).turnTimer = TURN_TIME) := by
  constructor <;> intro hcd
  · simp only [settleRound, hp, he, hcd, if_true]
    cases ht : st.turn
    · simp [handleWin, setMenuState]
    · simp [handleLose, setMenuState]
  · simp [settleRound, hp, he, hcd]

/-- Player ball of the capture-win witness. -/
def c3Player : Body :=
  { id := "player", type := BodyType.circle, x := 100, y := 100, vx := 0, vy := 0,
    mass := 1, radius := 15, restitution := 7/10, friction := 1/50, isPlayer := true }

/-- Enemy ball 50 units from the player, inside the hand span 120. -/
def c3Enemy : Body :=
  { id := "enemy", type := BodyType.circle, x := 150, y := 100, vx := 0, vy := 0,
    mass := 1, radius := 15, restitution := 7/10, friction := 1/50, isEnemy := true }

/-- Settling match state for the capture-win witness, player side acting. -/
def c3St : GameSt :=
  { state := GameState.SETTLING, menuState := MenuState.NONE, turn := Turn.PLAYER,
    turnTimer := 3, balls := [c3Player, c3Enemy], obstacles := [],
    width := 375, height := 667 }

/-- Witness for settleRound_capture_or_switch: distance 50 against hand
span 120 captures, and the player side, being the acting side, wins. -/
theorem settleRound_capture_or_switch_witness :
    (settleRound c3St).menuState = MenuState.GAME_OVER ∧
    (settleRound c3St).outcome = some (decide (c3St.turn = Turn.PLAYER)) :=
  (settleRound_capture_or_switch c3St c3Player c3Enemy rfl rfl).1
    (by
      simp only [PhysicsEngine.checkDistance, c3St, c3Player, c3Enemy,
        decide_eq_true_eq]
      norm_num)

/-- C4 amended: the turn countdown only ticks in the PLAYING state during
the AI turn.  During the player turn an update never changes the timer or
the active side, so the countdown can never elapse for the human side;
when it elapses for the AI the update does not forfeit the turn but fires
the AI launch: the state becomes MOVING, the countdown resets to the turn
duration, and the active side stays AI (the enemy ball receives the aimed
launch velocity, as the counterexample shows concretely). -/
theorem turn_timer_behavior :
    (∀ (cosA sinA : ℚ) (st : GameSt) (dt : ℚ), st.turn = Turn.PLAYER →
        (gameUpdate cosA sinA st dt).turn = Turn.PLAYER ∧
        (gameUpdate cosA sinA st dt).turnTimer = st.turnTimer) ∧
    (∀ (cosA sinA : ℚ) (st : GameSt) (dt : ℚ) (p e : Body),
        st.state = GameState.PLAYING → st.turn = Turn.AI →
        st.turnTimer - dt ≤ 0 →
        getPlayerBall (physPhase st dt) = some p →
        getEnemyBall (physPhase st dt) = some e →
        (gameUpdate cosA sinA st dt).state = GameState.MOVING ∧
        (gameUpdate cosA sinA st dt).turnTimer = TURN_TIME ∧
        (gameUpdate cosA sinA st dt).turn = Turn.AI) := by
  constructor
  · intro cosA sinA st dt hturn
    simp only [gameUpdate]
    split_ifs with h1 h2 h3 h4 h5 <;>
      first
        | exact ⟨hturn, rfl⟩
        | exact absurd ((by assumption : _ ∧ _).2 : st.turn = Turn.AI)
            (by rw [hturn]; simp)
  · intro cosA sinA st dt p e hstate hturn htime hp he
    simp only [gameUpdate]
    rw [if_pos (Or.inl hstate)]
    have hsettle : ¬ ((physPhase st dt).state = GameState.MOVING ∧
        isMoving (physPhase st dt).balls = false) := by
      intro hcc
      have hc1 := hcc.1
      simp only [physPhase] at hc1
      rw [hstate] at hc1
      simp at hc1
    rw [if_neg hsettle]
    have hai : (physPhase st dt).state = GameState.PLAYING ∧
        (physPhase st dt).turn = Turn.AI := by
      constructor
      · simp only [physPhase]
        exact hstate
      · simp only [physPhase]
        exact hturn
    rw [if_pos hai]
    rw [if_pos (show ({ physPhase st dt with
        turnTimer := (physPhase st dt).turnTimer - dt } : GameSt).turnTimer ≤ 0
      from htime)]
    have he2 : getEnemyBall
        { physPhase st dt with turnTimer := (physPhase st dt).turnTimer - dt }
        = some e := he
    have hp2 : getPlayerBall
        { physPhase st dt with turnTimer := (physPhase st dt).turnTimer - dt }
        = some p := hp
    simp only [executeAITurn, he2, hp2]
    exact ⟨trivial, trivial, hai.2⟩

/-- Player ball after the physics phase of the AI-timeout run. -/
def c4PlayerAfter : Body := { c4Player with vy := 297/500 }

/-- Enemy ball after the physics phase of the AI-timeout run. -/
def c4EnemyAfter : Body := { c4Enemy with vy := 297/500 }

/-- Witness for turn_timer_behavior: the player-turn part at the resting
MOVING state, and the AI-timeout part at the concrete PLAYING state. -/
theorem turn_timer_behavior_witness :
    ((gameUpdate 0 0 c8St 1).turn = Turn.PLAYER ∧
      (gameUpdate 0 0 c8St 1).turnTimer = c8St.turnTimer) ∧
    ((gameUpdate (-1) 0 c4St 1).state = GameState.MOVING ∧
      (gameUpdate (-1) 0 c4St 1).turnTimer = TURN_TIME ∧
      (gameUpdate (-1) 0 c4St 1).turn = Turn.AI) :=
  ⟨turn_timer_behavior.1 0 0 c8St 1 rfl,
   turn_timer_behavior.2 (-1) 0 c4St 1 c4PlayerAfter c4EnemyAfter rfl rfl
    (by norm_num [c4St])
    (by
      norm_num [physPhase, getPlayerBall, List.find?, gravity, airResistance,
        PhysicsEngine.update, PhysicsEngine.updateBody,
        PhysicsEngine.checkWorldBounds, PhysicsEngine.reflect, qpow,
        PhysicsEngine.collideAll, PhysicsEngine.collideLoop,
        PhysicsEngine.resolveSeq, PhysicsEngine.resolveCollision,
        PhysicsEngine.resolveCircleCollision,
        c4St, c4Player, c4Enemy, c4PlayerAfter])
    (by
      norm_num [physPhase, getEnemyBall, List.find?, gravity, airResistance,
        PhysicsEngine.update, PhysicsEngine.updateBody,
        PhysicsEngine.checkWorldBounds, PhysicsEngine.reflect, qpow,
        PhysicsEngine.collideAll, PhysicsEngine.collideLoop,
        PhysicsEngine.resolveSeq, PhysicsEngine.resolveCollision,
        PhysicsEngine.resolveCircleCollision,
        c4St, c4Player, c4Enemy, c4EnemyAfter])⟩

end Marble
